import Mathlib

/-
Verification of the notebook-instrumentation extension
(src/notebook-instrumentation/src/notebook_instrumentation/).

The Python module is embedded shallowly:
* the identity file `~/.notebook-id` is an `Option String` (its contents when
  it exists and is readable, `none` when the read raises for any reason);
* `uuid.uuid1()` is modelled by rendering a 128-bit seed in the canonical
  8-4-4-4-12 lowercase-hex format of `str(uuid.UUID)`;
* host probes (`platform.platform()`, `os.cpu_count()`, `psutil.*`,
  `ipykernel` connection info, `hashlib.md5` of the notebook file) are
  environment fields; a probe that can raise is an `Except String`;
* Python dicts are association lists kept in insertion order, with
  assignment-overwrite semantics (`dinsert`), membership (`dhas`),
  lookup (`dget`) and deletion (`ddel`);
* a function that can raise returns `Except String`, the error string naming
  the Python exception;
* `instrumentor.track(...)` is recorded as a `TrackCall` value; the backend
  adapter itself is out of scope.
-/

set_option autoImplicit false

namespace NotebookInstrumentation

/-! ## Definitions: identity resolver (instrumentation.py, `getid`) -/

/-- One lowercase hex digit. -/
def hexDigit (n : Nat) : Char :=
  if n < 10 then Char.ofNat (48 + n) else Char.ofNat (87 + n)

/-- `n` rendered as exactly `w` lowercase hex digits (most significant first). -/
def hexPad (n w : Nat) : String :=
  String.mk (((List.range w).reverse).map (fun i => hexDigit (n / 16 ^ i % 16)))

/-- Model of `str(uuid.uuid1())`: a 128-bit value rendered in the canonical
8-4-4-4-12 dashed hex format. The time/node entropy of `uuid1` is abstracted
into the 128-bit `seed`. -/
def uuid1Str (seed : Nat) : String :=
  hexPad (seed / 2 ^ 96 % 2 ^ 32) 8 ++ "-" ++ hexPad (seed / 2 ^ 80 % 2 ^ 16) 4 ++ "-" ++
    hexPad (seed / 2 ^ 64 % 2 ^ 16) 4 ++ "-" ++ hexPad (seed / 2 ^ 48 % 2 ^ 16) 4 ++ "-" ++
    hexPad (seed % 2 ^ 48) 12

/-- Embedding of `getid` (instrumentation.py lines 15-25).
Input: the identity file (`some` contents when readable, `none` when the
`open`/`read` raises) and the uuid seed for the cold-start branch.
Output: the returned token, the identity file afterwards, and the number of
file writes performed by this call. -/
def getid (fs : Option String) (seed : Nat) : String × Option String × Nat :=
  match fs with
  | some s => (s.trim, some s, 0)
  | none =>
    let id := uuid1Str seed
    (id, some id, 1)

/-- A whole-process sequence of `getid` calls (one seed per call), threading
the identity file through; returns the tokens, the final file state and the
total number of writes. -/
def getidRun (fs : Option String) (seeds : List Nat) : List String × Option String × Nat :=
  match seeds with
  | [] => ([], fs, 0)
  | sd :: rest =>
    let r := getid fs sd
    let rr := getidRun r.2.1 rest
    (r.1 :: rr.1, rr.2.1, r.2.2 + rr.2.2)

/-! ## Definitions: Python dicts as ordered association lists -/

/-- Python dict assignment `m[k] = v`: overwrite in place when the key is
present, append otherwise (insertion order preserved). -/
def dinsert (m : List (String × String)) (k v : String) : List (String × String) :=
  if m.any (fun p => p.1 = k) then m.map (fun p => if p.1 = k then (p.1, v) else p)
  else m ++ [(k, v)]

/-- Python `k in m`. -/
def dhas (m : List (String × String)) (k : String) : Bool :=
  m.any (fun p => p.1 = k)

/-- Python `m.get(k)` / `m[k]` lookup. -/
def dget (m : List (String × String)) (k : String) : Option String :=
  (m.find? (fun p => p.1 = k)).map (fun p => p.2)

/-- Python `del m[k]` after a successful membership check. -/
def ddel (m : List (String × String)) (k : String) : List (String × String) :=
  m.filter (fun p => p.1 ≠ k)

/-! ## Definitions: host event payloads (duck-typed Python values) -/

/-- A Python value as far as the extension inspects one: an int, a string, or
an object carrying an attribute dictionary. -/
inductive PyVal where
  | vInt (i : Int)
  | vStr (s : String)
  | vObj (dict : List (String × PyVal))

/-- Python `str(v)`. `str` of a plain object is an address-dependent
`<... object at 0x...>` text, abstracted here to a fixed placeholder; no
claim depends on its exact spelling. -/
def pyStr : PyVal → String
  | .vInt i => toString i
  | .vStr s => s
  | .vObj _ => "<object>"

/-- Python `repr(v)` for dict values (strings get quotes). -/
def pyReprVal : PyVal → String
  | .vInt i => toString i
  | .vStr s => "\x27" ++ s ++ "\x27"
  | .vObj _ => "<object>"

/-- Python `repr` of a dict, e.g. `repr(dict())` is the two-brace string. -/
def pyReprDict (d : List (String × PyVal)) : String :=
  "\x7b" ++ String.intercalate ", " (d.map (fun kv => "\x27" ++ kv.1 ++ "\x27: " ++ pyReprVal kv.2)) ++ "\x7d"

/-- A host event argument as `extract_info_from_event` probes it:
`dictAttrs` is the instance attribute dictionary when `hasattr(event,
"__dict__")` holds; `mapItems` is the key/value sequence when
`hasattr(event, "items")` holds; `infoAttr` is the value of `event.info`
when `hasattr(event, "info")` holds (an attribute need not live in
`__dict__`: slots, class attributes and properties also answer `hasattr`). -/
structure PyEvent where
  dictAttrs : Option (List (String × PyVal))
  mapItems : Option (List (String × PyVal))
  infoAttr : Option PyVal

/-- The loop `for k, v in d.items(): info[k] = str(v)`. -/
def insertAll (m : List (String × String)) (d : List (String × PyVal)) :
    List (String × String) :=
  d.foldl (fun acc kv => dinsert acc kv.1 (pyStr kv.2)) m

/-- Embedding of `extract_info_from_event` (__init__.py lines 26-40).
Copies `event.__dict__`, then `event.items()`, stringifying values; when the
event has an `info` attribute it copies `event.info.__dict__` and then runs
`del info["info"]`, which raises `KeyError` when no key `"info"` was ever
collected, and the access to `event.info.__dict__` raises `AttributeError`
when `event.info` has no attribute dictionary. -/
def extract_info_from_event (event : PyEvent) : Except String (List (String × String)) :=
  let info₁ :=
    match event.dictAttrs with
    | some d => insertAll [] d
    | none => []
  let info₂ :=
    match event.mapItems with
    | some d => insertAll info₁ d
    | none => info₁
  match event.infoAttr with
  | none => .ok info₂
  | some (.vObj d) =>
    let info₃ := insertAll info₂ d
    if dhas info₃ "info" then .ok (ddel info₃ "info") else .error "KeyError"
  | some _ => .error "AttributeError"

/-- The synthetic event of the normalization-completeness property: an object
whose instance attributes are a = 1, b = "x" and info = an object whose sole
attribute is c = 2. -/
def eventABInfo : PyEvent :=
  { dictAttrs := some [("a", .vInt 1), ("b", .vStr "x"), ("info", .vObj [("c", .vInt 2)])]
    mapItems := none
    infoAttr := some (.vObj [("c", .vInt 2)]) }

/-- A dict-free event whose `info` attribute is supplied by its class (so it
is answered by `hasattr` but absent from the empty instance `__dict__`). -/
def eventClassLevelInfo : PyEvent :=
  { dictAttrs := some []
    mapItems := none
    infoAttr := some (.vObj [("c", .vInt 2)]) }

/-- An event whose sole instance attribute is named `raw_event`. -/
def eventRawOverride : PyEvent :=
  { dictAttrs := some [("raw_event", .vStr "evil")]
    mapItems := none
    infoAttr := none }

/-! ## Definitions: notebook environment (instrumentation.py helpers) -/

/-- Host state consulted by the notebook helpers: `connPath` is the
`jupyter_session` entry of the ipykernel connection info (`none` when
obtaining or parsing it raises), and `contentHash` is the hex digest
`hashlib.md5` computes from the notebook file (`none` when opening, reading
or hashing raises). -/
structure NbEnv where
  connPath : Option String
  contentHash : Option String

/-- The tail component of `os.path.split(p)`: everything after the last
slash. -/
def pathBasename (p : String) : String :=
  (p.splitOn "/").getLastD ""

/-- Embedding of `get_notebook_path` (instrumentation.py lines 28-34):
the connection info's `jupyter_session`, or `"unknown"` on any exception. -/
def get_notebook_path (env : NbEnv) : String :=
  match env.connPath with
  | some p => p
  | none => "unknown"

/-- Embedding of `get_notebook_name` (instrumentation.py lines 36-37). -/
def get_notebook_name (env : NbEnv) : String :=
  pathBasename (get_notebook_path env)

/-- Embedding of `get_notebook_hash` (instrumentation.py lines 56-61): the
md5 hex digest of the notebook file, or `"unknown"` on any exception. -/
def get_notebook_hash (env : NbEnv) : String :=
  match env.contentHash with
  | some h => h
  | none => "unknown"

/-! ## Definitions: context collector (instrumentation.py, `collect_system_context`) -/

/-- Host probes used by `collect_system_context`: `platform.platform()` and
`os.cpu_count()` (which may return Python `None`) do not raise; the psutil
memory and disk probes may raise, so they are `Except` values carrying a
rendering of the returned snapshot object on success. -/
structure SysEnv where
  platformDesc : String
  cpuCount : Option Nat
  memory : Except String String
  disk : Except String String

/-- A value of the context dictionary: a string, a possibly-`None` count, or
a nested string-to-string block. -/
inductive CtxVal where
  | str (s : String)
  | optNat (n : Option Nat)
  | table (m : List (String × String))

/-- Key membership in a context dictionary. -/
def ctxHas (m : List (String × CtxVal)) (k : String) : Bool :=
  m.any (fun p => p.1 = k)

/-- The dict literal built inside `collect_system_context` (instrumentation.py
lines 71-85), with the dict-literal values evaluated in source order: the
`app` name (via `get_notebook_name`), the constant `library` block, the
platform string, the cpu count, then the psutil memory and disk probes, either
of which propagates its exception. -/
def system_context_properties (nbName : String) (sys : SysEnv) :
    Except String (List (String × CtxVal)) :=
  match sys.memory with
  | .error e => .error e
  | .ok mem =>
    match sys.disk with
    | .error e => .error e
    | .ok dsk =>
      .ok [("app", .table [("name", "notebook " ++ nbName)]),
           ("library", .table [("name", "instrumentation"), ("version", "0.0.1"), ("build", "1")]),
           ("platform", .str sys.platformDesc),
           ("cpu_count", .optNat sys.cpuCount),
           ("memory", .str mem),
           ("disk", .str dsk)]

/-- Embedding of `collect_system_context` (instrumentation.py lines 65-85):
the function populates the local `properties` dict and then falls off the end
without a `return` statement, so on success it returns Python `None`; an
exception from a probe propagates. -/
def collect_system_context (env : NbEnv) (sys : SysEnv) :
    Except String (Option (List (String × CtxVal))) :=
  match system_context_properties (get_notebook_name env) sys with
  | .error e => .error e
  | .ok _properties => .ok none

/-- A demonstration notebook environment: session `/home/u/nb.ipynb`,
readable notebook file. -/
def nbEnvDemo : NbEnv :=
  { connPath := some "/home/u/nb.ipynb", contentHash := some "d41d8cd98f00b204e9800998ecf8427e" }

/-- A demonstration host where every probe succeeds. -/
def sysOk : SysEnv :=
  { platformDesc := "Linux-6.1.0-x86_64", cpuCount := some 8
    memory := .ok "svmem(total=16)", disk := .ok "sdiskusage(total=512)" }

/-- A host whose disk-usage probe raises while everything else succeeds. -/
def sysDiskFail : SysEnv :=
  { platformDesc := "Linux-6.1.0-x86_64", cpuCount := some 8
    memory := .ok "svmem(total=16)", disk := .error "PermissionError" }

/-! ## Definitions: backend configuration (instrumentation.py, module level) -/

/-- Python `s.lower()` (ASCII case folding, character by character). -/
def pyLower (s : String) : String :=
  String.mk (s.data.map Char.toLower)

/-- Embedding of `analytics.send = not os.environ.get(
"INSTRUMENTATION_SEND_DISABLED", "").lower() in ('true', '1', 't')`
(instrumentation.py line 7). Python parses this as
`not (value in tuple)`, so the flag disables sending exactly on the three
truthy spellings. `envVar` is the environment variable's value, `none` when
unset. -/
def analytics_send (envVar : Option String) : Bool :=
  !(decide (pyLower (envVar.getD "") ∈ (["true", "1", "t"] : List String)))

/-! ## Definitions: event handler and extension loading (__init__.py) -/

/-- One `instrumentor.track(None, event_name, properties, context=...,
anonymous_id=...)` invocation, as observed by the backend adapter. -/
structure TrackCall where
  eventName : String
  properties : List (String × String)
  context : Option (List (String × CtxVal))
  anonymousId : String

/-- The `properties` dict the handler builds (__init__.py lines 43-51): the
literal with `raw_event` (the repr of the freshly created empty dict),
`notebook_name` and `notebook_hash`, then — only when at least one host
argument was supplied — every pair extracted from the first argument is
assigned over it, an exception from the extraction propagating. -/
def build_properties (args : List PyEvent) (env : NbEnv) :
    Except String (List (String × String)) :=
  let properties : List (String × String) :=
    [("raw_event", pyReprDict []),
     ("notebook_name", get_notebook_name env),
     ("notebook_hash", get_notebook_hash env)]
  match args with
  | [] => .ok properties
  | a :: _ =>
    match extract_info_from_event a with
    | .error e => .error e
    | .ok m => .ok (m.foldl (fun acc kv => dinsert acc kv.1 kv.2) properties)

/-- The extraction actually applied to the argument list: nothing for an
empty list, `extract_info_from_event` on the first argument otherwise. -/
def extractedArgs : List PyEvent → Except String (List (String × String))
  | [] => .ok []
  | a :: _ => extract_info_from_event a

/-- Embedding of `generic_event_handler` (__init__.py lines 42-52): build the
properties, then — in the evaluation order of the `track` call — collect the
system context and resolve the identity (whose possible file write happens
here), and hand the record to the backend. Returns the `TrackCall` and the
identity file afterwards. -/
def generic_event_handler (event_name : String) (args : List PyEvent) (env : NbEnv)
    (sys : SysEnv) (fs : Option String) (seed : Nat) :
    Except String (TrackCall × Option String) :=
  match build_properties args env with
  | .error e => .error e
  | .ok properties =>
    match collect_system_context env sys with
    | .error e => .error e
    | .ok ctx =>
      let r := getid fs seed
      .ok ({ eventName := event_name, properties := properties, context := ctx,
             anonymousId := r.1 }, r.2.1)

/-- The literal list iterated by the registration loop (__init__.py
lines 16-22). -/
def lifecycleEvents : List String :=
  ["shell_initialized", "pre_run_cell", "post_run_cell", "pre_execute", "post_execute"]

/-- Embedding of `load_ipython_extension` (__init__.py lines 12-24): one
immediate `track` of a `shell_initialized` record (its context collected and
the identity resolved first, in argument order), then one
`ipython.events.register` per name of the literal event list, modelled by the
loop appending each name to the registration list. Returns the startup track
calls, the registrations, and the identity file afterwards. -/
def load_ipython_extension (env : NbEnv) (sys : SysEnv) (fs : Option String) (seed : Nat) :
    Except String (List TrackCall × List String × Option String) :=
  match collect_system_context env sys with
  | .error e => .error e
  | .ok ctx =>
    let r := getid fs seed
    let startup : TrackCall :=
      { eventName := "shell_initialized"
        properties := [("notebook_name", get_notebook_name env)]
        context := ctx
        anonymousId := r.1 }
    let registrations := lifecycleEvents.foldl (fun acc e => acc ++ [e]) []
    .ok ([startup], registrations, r.2.1)

/-- The `raw_event` property of a handler outcome, when one was produced. -/
def rawEventOf (x : Except String (TrackCall × Option String)) : Option String :=
  match x with
  | .ok r => dget r.1.properties "raw_event"
  | .error _ => none

/-! ## Helper lemmas -/

theorem hexPad_length (n w : Nat) : (hexPad n w).length = w := by
  simp [hexPad, String.length]

theorem uuid1Str_length (seed : Nat) : (uuid1Str seed).length = 36 := by
  simp [uuid1Str, String.length_append, hexPad_length]
  decide

theorem uuid1Str_ne_empty (seed : Nat) : uuid1Str seed ≠ "" := by
  intro h
  have h36 := uuid1Str_length seed
  rw [h] at h36
  simp [String.length] at h36

theorem getidRun_some_no_write (s : String) (seeds : List Nat) :
    (getidRun (some s) seeds).2.2 = 0 := by
  induction seeds with
  | nil => rfl
  | cons sd rest ih => simp [getidRun, getid, ih]

theorem dget_cons (p : String × String) (m : List (String × String)) (key : String) :
    dget (p :: m) key = if p.1 = key then some p.2 else dget m key := by
  by_cases h : p.1 = key <;> simp [dget, List.find?_cons, h]

theorem dget_append_single_ne (m : List (String × String)) (k v key : String)
    (h : ¬k = key) : dget (m ++ [(k, v)]) key = dget m key := by
  induction m with
  | nil => simp [dget, List.find?_cons, h]
  | cons p rest ih =>
    rw [List.cons_append, dget_cons, dget_cons, ih]

theorem dget_map_overwrite_ne (m : List (String × String)) (k v key : String)
    (h : ¬k = key) :
    dget (m.map (fun p => if p.1 = k then (p.1, v) else p)) key = dget m key := by
  induction m with
  | nil => rfl
  | cons p rest ih =>
    rw [List.map_cons, dget_cons, dget_cons, ih]
    by_cases hk : p.1 = k
    · have hkey : ¬p.1 = key := by rw [hk]; exact h
      simp [hk, hkey, h]
    · simp [hk]

theorem dget_dinsert_ne (m : List (String × String)) (k v key : String)
    (h : ¬k = key) : dget (dinsert m k v) key = dget m key := by
  unfold dinsert
  by_cases hc : m.any (fun p => p.1 = k) <;>
    simp only [hc, if_true, if_false, Bool.false_eq_true, ite_true, ite_false]
  · exact dget_map_overwrite_ne m k v key h
  · exact dget_append_single_ne m k v key h

theorem dget_foldl_insert (ext : List (String × String)) (m : List (String × String))
    (key : String) (h : ∀ p ∈ ext, ¬p.1 = key) :
    dget (ext.foldl (fun acc kv => dinsert acc kv.1 kv.2) m) key = dget m key := by
  induction ext generalizing m with
  | nil => rfl
  | cons q rest ih =>
    rw [List.foldl_cons, ih _ (fun p hp => h p (List.mem_cons_of_mem q hp)),
      dget_dinsert_ne _ _ _ _ (h q (List.mem_cons_self q rest))]

theorem dhas_false_forall (m : List (String × String)) (k : String)
    (h : dhas m k = false) : ∀ p ∈ m, ¬p.1 = k := by
  intro p hp hk
  have hx : m.any (fun q => q.1 = k) = true :=
    List.any_eq_true.mpr ⟨p, hp, by simp [hk]⟩
  rw [dhas] at h
  rw [h] at hx
  exact Bool.false_ne_true hx

/-! ## Claim theorems -/

/-- C3: when the identity file exists and is readable, `getid` returns the
trimmed file contents, performs no write, leaves the file unchanged, and a
second call returns the identical token, also without writing. -/
theorem getid_stable_no_write (s : String) (seed₁ seed₂ : Nat) :
    (getid (some s) seed₁).1 = s.trim ∧
    (getid (some s) seed₁).2.2 = 0 ∧
    (getid (some s) seed₁).2.1 = some s ∧
    (getid ((getid (some s) seed₁).2.1) seed₂).1 = (getid (some s) seed₁).1 ∧
    (getid ((getid (some s) seed₁).2.1) seed₂).2.2 = 0 := by
  simp [getid]

theorem getid_stable_no_write_witness :
    (getid (some " tok-77 ") 5).1 = " tok-77 ".trim ∧
    (getid (some " tok-77 ") 5).2.2 = 0 ∧
    (getid (some " tok-77 ") 5).2.1 = some " tok-77 " ∧
    (getid ((getid (some " tok-77 ") 5).2.1) 9).1 = (getid (some " tok-77 ") 5).1 ∧
    (getid ((getid (some " tok-77 ") 5).2.1) 9).2.2 = 0 :=
  getid_stable_no_write " tok-77 " 5 9

/-- C4: when the identity file is absent or unreadable, `getid` generates a
fresh token, returns it non-empty, performs exactly one write, and the file
afterwards contains exactly the returned token. -/
theorem getid_coldstart_writes_token (seed : Nat) :
    (getid none seed).1 ≠ "" ∧
    (getid none seed).2.1 = some ((getid none seed).1) ∧
    (getid none seed).2.2 = 1 := by
  refine ⟨?_, ?_, ?_⟩
  · simpa [getid] using uuid1Str_ne_empty seed
  · simp [getid]
  · simp [getid]

theorem getid_coldstart_writes_token_witness :
    (getid none 12345).1 ≠ "" ∧
    (getid none 12345).2.1 = some ((getid none 12345).1) ∧
    (getid none 12345).2.2 = 1 :=
  getid_coldstart_writes_token 12345

/-- C8: over any process-lifetime sequence of `getid` calls, at most one write
to the identity file happens, and none at all when the initial read succeeds
(the single write can only be the cold-start one). -/
theorem getid_at_most_one_write (fs : Option String) (seeds : List Nat) :
    (getidRun fs seeds).2.2 ≤ 1 ∧
    (fs.isSome → (getidRun fs seeds).2.2 = 0) := by
  constructor
  · match fs with
    | some s => simp [getidRun_some_no_write]
    | none =>
      match seeds with
      | [] => simp [getidRun]
      | sd :: rest => simp [getidRun, getid, getidRun_some_no_write]
  · intro h
    match fs with
    | some s => simp [getidRun_some_no_write]
    | none => simp at h

theorem getid_at_most_one_write_witness :
    (getidRun (some "tok") [1, 2, 3]).2.2 = 0 :=
  (getid_at_most_one_write (some "tok") [1, 2, 3]).2 (by simp)

/-- C5: on the synthetic event with attributes a = 1, b = "x" and a nested
info sub-object with c = 2, extraction yields a mapping with a = "1",
b = "x", c = "2" (values stringified, the info attributes lifted to the top
level) and no "info" key. -/
theorem extract_info_lifts_nested_info :
    extract_info_from_event eventABInfo =
      .ok [("a", "1"), ("b", "x"), ("c", "2")] ∧
    (∃ m, extract_info_from_event eventABInfo = .ok m ∧
      dget m "a" = some "1" ∧ dget m "b" = some "x" ∧ dget m "c" = some "2" ∧
      dhas m "info" = false) := by
  refine ⟨by rfl, ⟨[("a", "1"), ("b", "x"), ("c", "2")], by rfl, by decide, by decide, by decide, by decide⟩⟩

/-- C6 counterexample: an event in the claimed input class (attribute-style
access plus an info attribute) on which normalization raises `KeyError`
instead of returning a mapping: the instance attribute dictionary is empty,
so `del info["info"]` finds no "info" key. -/
theorem extract_info_keyerror_on_class_level_info :
    extract_info_from_event eventClassLevelInfo = .error "KeyError" := by
  rfl

/-- C6 (amended): an event without an `info` attribute never makes
normalization raise, and with no event argument the handler's property
construction returns (never raises) a mapping carrying the synthesized
constant fields `raw_event`, `notebook_name` and `notebook_hash`; only the
`info`-attribute path can raise. -/
theorem normalize_safe_without_info_attr (e : PyEvent) (h : e.infoAttr = none)
    (env : NbEnv) :
    (∃ m, extract_info_from_event e = .ok m) ∧
    (∃ props, build_properties [] env = .ok props ∧
      dhas props "notebook_name" = true ∧ dhas props "notebook_hash" = true ∧
      dhas props "raw_event" = true) := by
  constructor
  · refine ⟨?_, ?_⟩
    · exact
        match e.dictAttrs with
        | some d =>
          match e.mapItems with
          | some d₂ => insertAll (insertAll [] d) d₂
          | none => insertAll [] d
        | none =>
          match e.mapItems with
          | some d₂ => insertAll [] d₂
          | none => []
    · unfold extract_info_from_event
      rw [h]
      match e.dictAttrs with
      | some d =>
        match e.mapItems with
        | some d₂ => rfl
        | none => rfl
      | none =>
        match e.mapItems with
        | some d₂ => rfl
        | none => rfl
  · exact ⟨_, rfl, rfl, rfl, rfl⟩

theorem normalize_safe_without_info_attr_witness :
    (∃ m, extract_info_from_event
      { dictAttrs := some [("a", .vInt 1)], mapItems := none, infoAttr := none } = .ok m) ∧
    (∃ props, build_properties [] nbEnvDemo = .ok props ∧
      dhas props "notebook_name" = true ∧ dhas props "notebook_hash" = true ∧
      dhas props "raw_event" = true) :=
  normalize_safe_without_info_attr
    { dictAttrs := some [("a", .vInt 1)], mapItems := none, infoAttr := none } rfl nbEnvDemo

/-- C1: the claim fails on the code — `collect_system_context` never returns
the context mapping it describes: the dict it builds internally does contain
the platform string, cpu count, memory and disk snapshots and the constant
library block, but the function has no return statement, so every successful
invocation returns Python `None` instead of that mapping. -/
theorem collect_system_context_discards_mapping :
    collect_system_context nbEnvDemo sysOk = .ok none ∧
    (∃ d, system_context_properties (get_notebook_name nbEnvDemo) sysOk = .ok d ∧
      ctxHas d "platform" = true ∧ ctxHas d "cpu_count" = true ∧
      ctxHas d "memory" = true ∧ ctxHas d "disk" = true ∧
      ctxHas d "library" = true) := by
  refine ⟨by rfl, ⟨_, by rfl, by rfl, by rfl, by rfl, by rfl, by rfl⟩⟩

/-- C2 counterexample: with the disk-usage probe raising, the collector
propagates the exception instead of returning a mapping with the disk field
omitted and platform and cpu count still present. -/
theorem collect_system_context_propagates_disk_error :
    collect_system_context nbEnvDemo sysDiskFail = .error "PermissionError" := by
  rfl

/-- C2 (amended): `collect_system_context` has no exception handling: when
the disk-usage probe raises (and the earlier probes succeed) the exception
propagates out of the collector and no context mapping — degraded or
otherwise — is produced. -/
theorem collect_system_context_error_propagation (env : NbEnv) (sys : SysEnv)
    (mem e : String) (hmem : sys.memory = .ok mem) (hdisk : sys.disk = .error e) :
    collect_system_context env sys = .error e := by
  unfold collect_system_context system_context_properties
  rw [hmem, hdisk]

theorem collect_system_context_error_propagation_witness :
    collect_system_context nbEnvDemo sysDiskFail = .error "PermissionError" :=
  collect_system_context_error_propagation nbEnvDemo sysDiskFail
    "svmem(total=16)" "PermissionError" rfl rfl

/-- C10: the send flag is false exactly when INSTRUMENTATION_SEND_DISABLED,
lowercased, is one of "true", "1", "t"; in particular it stays true when the
variable is unset or set to any other value. -/
theorem analytics_send_polarity (v : Option String) :
    (analytics_send v = false ↔
      pyLower (v.getD "") ∈ (["true", "1", "t"] : List String)) ∧
    analytics_send none = true ∧ analytics_send (some "false") = true := by
  refine ⟨?_, by decide, by decide⟩
  simp [analytics_send]
  tauto

theorem analytics_send_polarity_witness :
    analytics_send (some "TRUE") = false :=
  (analytics_send_polarity (some "TRUE")).1.mpr (by decide)

/-- C7: when the context probes succeed, a single load of the extension emits
exactly one immediate synthetic startup record (a `shell_initialized` track
call, not tied to any host callback) and registers exactly one callback for
each of the five fixed lifecycle event names, with no duplicates. -/
theorem load_registers_five_and_one_startup (env : NbEnv) (sys : SysEnv)
    (fs : Option String) (seed : Nat) (mem dsk : String)
    (hmem : sys.memory = .ok mem) (hdisk : sys.disk = .ok dsk) :
    ∃ startup fs₁,
      load_ipython_extension env sys fs seed = .ok ([startup], lifecycleEvents, fs₁) ∧
      startup.eventName = "shell_initialized" ∧
      ([startup] : List TrackCall).length = 1 ∧
      lifecycleEvents =
        ["shell_initialized", "pre_run_cell", "post_run_cell", "pre_execute", "post_execute"] ∧
      lifecycleEvents.length = 5 ∧ lifecycleEvents.Nodup := by
  refine ⟨{ eventName := "shell_initialized"
            properties := [("notebook_name", get_notebook_name env)]
            context := none
            anonymousId := (getid fs seed).1 },
          (getid fs seed).2.1, ?_, rfl, rfl, rfl, rfl, by decide⟩
  unfold load_ipython_extension collect_system_context system_context_properties
  rw [hmem, hdisk]
  rfl

theorem load_registers_five_and_one_startup_witness :
    ∃ startup fs₁,
      load_ipython_extension nbEnvDemo sysOk (some "tok") 7 =
        .ok ([startup], lifecycleEvents, fs₁) ∧
      startup.eventName = "shell_initialized" ∧
      ([startup] : List TrackCall).length = 1 ∧
      lifecycleEvents =
        ["shell_initialized", "pre_run_cell", "post_run_cell", "pre_execute", "post_execute"] ∧
      lifecycleEvents.length = 5 ∧ lifecycleEvents.Nodup :=
  load_registers_five_and_one_startup nbEnvDemo sysOk (some "tok") 7
    "svmem(total=16)" "sdiskusage(total=512)" rfl rfl

/-- C9 counterexample: a host event whose instance attribute is itself named
`raw_event` overrides the constant: the delivered record's `raw_event`
property is the attribute's stringified value, not the repr of the empty
dict. -/
theorem raw_event_overridden_by_event_key :
    rawEventOf
        (generic_event_handler "post_run_cell" [eventRawOverride] nbEnvDemo sysOk (some "tok") 7) =
      some "evil" ∧
    rawEventOf
        (generic_event_handler "post_run_cell" [eventRawOverride] nbEnvDemo sysOk (some "tok") 7) ≠
      some (pyReprDict []) := by
  refine ⟨by rfl, ?_⟩
  intro h
  rw [show rawEventOf
      (generic_event_handler "post_run_cell" [eventRawOverride] nbEnvDemo sysOk (some "tok") 7) =
    some "evil" from rfl] at h
  exact absurd h (by decide)

/-- C9 (amended): whenever the extraction applied to the host arguments does
not itself produce a key named `raw_event` (in particular whenever no
argument is supplied), the delivered record's `raw_event` property is the
constant repr of a freshly created empty dict, never a representation of the
actual host event. -/
theorem raw_event_constant_without_collision (name : String) (args : List PyEvent)
    (env : NbEnv) (sys : SysEnv) (fs : Option String) (seed : Nat)
    (m : List (String × String)) (mem dsk : String)
    (hargs : extractedArgs args = .ok m) (hraw : dhas m "raw_event" = false)
    (hmem : sys.memory = .ok mem) (hdisk : sys.disk = .ok dsk) :
    ∃ c fs₁, generic_event_handler name args env sys fs seed = .ok (c, fs₁) ∧
      dget c.properties "raw_event" = some (pyReprDict []) := by
  match args with
  | [] =>
    refine ⟨{ eventName := name
              properties := [("raw_event", pyReprDict []),
                ("notebook_name", get_notebook_name env),
                ("notebook_hash", get_notebook_hash env)]
              context := none
              anonymousId := (getid fs seed).1 },
            (getid fs seed).2.1, ?_, by rfl⟩
    unfold generic_event_handler build_properties collect_system_context
      system_context_properties
    rw [hmem, hdisk]
  | a :: rest =>
    have hex : extract_info_from_event a = .ok m := hargs
    have hb : build_properties (a :: rest) env =
        .ok (m.foldl (fun acc kv => dinsert acc kv.1 kv.2)
          [("raw_event", pyReprDict []),
           ("notebook_name", get_notebook_name env),
           ("notebook_hash", get_notebook_hash env)]) := by
      show (match extract_info_from_event a with
        | Except.error e => Except.error e
        | Except.ok mm => Except.ok (mm.foldl (fun acc kv => dinsert acc kv.1 kv.2)
            [("raw_event", pyReprDict []),
             ("notebook_name", get_notebook_name env),
             ("notebook_hash", get_notebook_hash env)])) =
        Except.ok (m.foldl (fun acc kv => dinsert acc kv.1 kv.2)
          [("raw_event", pyReprDict []),
           ("notebook_name", get_notebook_name env),
           ("notebook_hash", get_notebook_hash env)])
      rw [hex]
    have hc : collect_system_context env sys = .ok none := by
      unfold collect_system_context system_context_properties
      rw [hmem, hdisk]
    refine ⟨{ eventName := name
              properties := m.foldl (fun acc kv => dinsert acc kv.1 kv.2)
                [("raw_event", pyReprDict []),
                 ("notebook_name", get_notebook_name env),
                 ("notebook_hash", get_notebook_hash env)]
              context := none
              anonymousId := (getid fs seed).1 },
            (getid fs seed).2.1, ?_, ?_⟩
    · unfold generic_event_handler
      rw [hb, hc]
    · show dget (m.foldl (fun acc kv => dinsert acc kv.1 kv.2)
          [("raw_event", pyReprDict []),
           ("notebook_name", get_notebook_name env),
           ("notebook_hash", get_notebook_hash env)]) "raw_event" = some (pyReprDict [])
      rw [dget_foldl_insert m _ "raw_event" (dhas_false_forall m "raw_event" hraw)]
      rfl

theorem raw_event_constant_without_collision_witness :
    ∃ c fs₁, generic_event_handler "pre_execute" [] nbEnvDemo sysOk (some "tok") 7 =
        .ok (c, fs₁) ∧
      dget c.properties "raw_event" = some (pyReprDict []) :=
  raw_event_constant_without_collision "pre_execute" [] nbEnvDemo sysOk (some "tok") 7
    [] "svmem(total=16)" "sdiskusage(total=512)" rfl rfl rfl rfl

end NotebookInstrumentation
